import Mathlib

/-!
Verification of the WallSwipe Telegram bot (`src/index.js`) against its
natural-language specification.

The bot is shallowly embedded: MongoDB collections become Lean lists held in a
`Store` record, `Date.now()` becomes an explicit `now : Int` parameter
(milliseconds of local-naive time), and each `bot.onText` handler becomes a
pure function from a context and message to a list of observable `Effect`s
(outbound sends, rate-limit delays, store queries), plus an updated `Store`
for the one handler that writes (`/start`).  JavaScript truthiness on the
optional string/boolean fields (`x || null`, `x || false`, `if (wallpaperId)`)
is modelled explicitly.
-/

/-- The `msg.from` sender profile as delivered by the Telegram gateway.
All fields except `id` are modelled as optional, mirroring the JS code's
defensive `|| null` / `|| false` accesses. -/
structure TgUser where
  id : Int
  username : Option String
  first_name : Option String
  last_name : Option String
  language_code : Option String
  is_bot : Option Bool
  is_premium : Option Bool
deriving DecidableEq

/-- One document of the `User` collection (userSchema, src/index.js lines 30-42). -/
structure UserRec where
  userId : Int
  username : Option String
  firstName : Option String
  lastName : Option String
  languageCode : Option String
  isBot : Bool
  isPremium : Bool
  firstSeen : Int
  lastActive : Int
  totalInteractions : Nat
  wallpapersViewed : List String
deriving DecidableEq

/-- One document of the `LinkClick` collection (linkClickSchema, lines 44-49). -/
structure LinkClickRec where
  wallpaperId : String
  userId : Int
  username : Option String
  timestamp : Int
deriving DecidableEq

/-- The MongoDB state: both collections in insertion order. -/
structure Store where
  users : List UserRec
  clicks : List LinkClickRec
deriving DecidableEq

/-- JS `s || null` for an optional string: both `undefined`/`null` and the
empty string are falsy and collapse to `null`. -/
def jsStrOrNull : Option String → Option String
  | none => none
  | some v => if v = "" then none else some v

/-- JS truthiness of an optional string (`if (x)`): absent and empty are falsy. -/
def truthyOptStr : Option String → Bool
  | none => false
  | some v => v != ""

/-- JS whitespace class `\s` restricted to ASCII: tab, LF, VT, FF, CR, space. -/
def isJsWs (c : Char) : Bool := (9 ≤ c.toNat && c.toNat ≤ 13) || c == ' '

/-- JS `String.prototype.trim()`: strip leading and trailing whitespace. -/
def jsTrim (s : String) : String :=
  String.mk (((s.toList.dropWhile isJsWs).reverse.dropWhile isJsWs).reverse)

/-- `userData.username = user.username || null; ...` and the counter/time
updates of the existing-user branch of `saveUserData` (lines 111-123).
Note the branch does not touch `isBot` or `firstSeen`. -/
def updateRec (now : Int) (sender : TgUser) (wallpaperId : Option String) (r : UserRec) : UserRec :=
  let r1 : UserRec :=
    { r with
      username := jsStrOrNull sender.username
      firstName := jsStrOrNull sender.first_name
      lastName := jsStrOrNull sender.last_name
      languageCode := jsStrOrNull sender.language_code
      isPremium := sender.is_premium.getD false
      lastActive := now
      totalInteractions := r.totalInteractions + 1 }
  match wallpaperId with
  | some w =>
      if w != "" && !(r1.wallpapersViewed.contains w) then
        { r1 with wallpapersViewed := r1.wallpapersViewed ++ [w] }
      else r1
  | none => r1

/-- The new-user branch of `saveUserData` (lines 128-141): schema defaults
give `firstSeen = lastActive = now` and `totalInteractions = 1`. -/
def newRec (now : Int) (sender : TgUser) (wallpaperId : Option String) : UserRec :=
  { userId := sender.id
    username := jsStrOrNull sender.username
    firstName := jsStrOrNull sender.first_name
    lastName := jsStrOrNull sender.last_name
    languageCode := jsStrOrNull sender.language_code
    isBot := sender.is_bot.getD false
    isPremium := sender.is_premium.getD false
    firstSeen := now
    lastActive := now
    totalInteractions := 1
    wallpapersViewed :=
      match wallpaperId with
      | some w => if w != "" then [w] else []
      | none => [] }

/-- Replace the first list element satisfying `p` (a mongoose `doc.save()`
after mutating the document returned by `findOne`). -/
def replaceFirst (p : UserRec → Bool) (v : UserRec) : List UserRec → List UserRec
  | [] => []
  | u :: us => if p u then v :: us else u :: replaceFirst p v us

/-- `saveUserData(msg, wallpaperId)` (lines 104-148): upsert on the `User`
collection keyed by `msg.from.id`. -/
def saveUserData (now : Int) (sender : TgUser) (wallpaperId : Option String) (s : Store) : Store :=
  match s.users.find? (fun u => u.userId == sender.id) with
  | some r =>
      { s with users := replaceFirst (fun u => u.userId == sender.id)
                          (updateRec now sender wallpaperId r) s.users }
  | none => { s with users := s.users ++ [newRec now sender wallpaperId] }

/-- `trackLinkClick(userId, username, wallpaperId)` (lines 151-164):
unconditionally append a `LinkClick` document. -/
def trackLinkClick (now : Int) (userId : Int) (username : Option String)
    (wallpaperId : String) (s : Store) : Store :=
  { s with clicks := s.clicks ++
      [{ wallpaperId := wallpaperId, userId := userId,
         username := jsStrOrNull username, timestamp := now }] }

/-- One `recordInteraction` call: a timestamp, the sender profile, and the
optional wallpaper id. -/
structure Interaction where
  now : Int
  sender : TgUser
  wallpaperId : Option String
deriving DecidableEq

/-- Run a sequence of `saveUserData` calls left to right. -/
def runInteractions (s : Store) : List Interaction → Store
  | [] => s
  | i :: rest => runInteractions (saveUserData i.now i.sender i.wallpaperId s) rest

/-- The cumulative effect on one user's record of a list of further
interactions, each one taking the existing-user branch of `saveUserData`. -/
def applyInteractions (r : UserRec) : List Interaction → UserRec
  | [] => r
  | i :: is => applyInteractions (updateRec i.now i.sender i.wallpaperId r) is

/-- An observable action of a handler: a delivered outbound message, a send
attempt the gateway rejected (the `catch` path of the broadcast loop), the
rate-limit delay (`setTimeout`, milliseconds), or a store query against one
of the two collections. -/
inductive Effect where
  | send (chatId : Int) (text : String)
  | sendFail (chatId : Int) (text : String)
  | delay (ms : Nat)
  | queryUsers
  | queryClicks
deriving DecidableEq

/-- The parts of an inbound Telegram message the handlers read. -/
structure Msg where
  chatId : Int
  sender : TgUser
deriving DecidableEq

/-- Ambient handler context: the `ADMIN_USER_ID` environment variable
(`none` = unset), the current time, the database state, and the gateway's
per-recipient send outcome (`sendMessage` resolves or rejects). -/
structure Ctx where
  adminId : Option String
  now : Int
  store : Store
  sendOk : Int → Bool

/-- The admin gate condition `ADMIN_USER_ID && userId.toString() !== ADMIN_USER_ID`
shared by every admin handler: an unset (or empty, hence falsy) admin id
authorizes everyone. -/
def adminMismatch (adminId : Option String) (userId : Int) : Bool :=
  match adminId with
  | none => false
  | some a => a != "" && toString userId != a

def unauthorizedText : String := "❌ Unauthorized. Admin only command."

/-- Digit value of an ASCII decimal digit. -/
def decDigitVal (c : Char) : Option Nat :=
  if 48 ≤ c.toNat && c.toNat ≤ 57 then some (c.toNat - 48) else none

/-- Digit value of an ASCII hexadecimal digit. -/
def hexDigitVal (c : Char) : Option Nat :=
  if 48 ≤ c.toNat && c.toNat ≤ 57 then some (c.toNat - 48)
  else if 97 ≤ c.toNat && c.toNat ≤ 102 then some (c.toNat - 97 + 10)
  else if 65 ≤ c.toNat && c.toNat ≤ 70 then some (c.toNat - 65 + 10)
  else none

/-- Accumulate the longest digit prefix; `none` when no leading digit exists
(JS `parseInt` returning `NaN`). -/
def parseDigits (dv : Char → Option Nat) (base : Nat) : List Char → Option Nat → Option Nat
  | [], acc => acc
  | c :: cs, acc =>
      match dv c with
      | some d => parseDigits dv base cs (some (base * acc.getD 0 + d))
      | none => acc

/-- Magnitude part of JS `parseInt(s)` with no radix argument: a `0x`/`0X`
prefix switches to base 16, otherwise base 10; parsing stops at the first
non-digit. -/
def parseIntAbs : List Char → Option Nat
  | '0' :: 'x' :: cs => parseDigits hexDigitVal 16 cs none
  | '0' :: 'X' :: cs => parseDigits hexDigitVal 16 cs none
  | cs => parseDigits decDigitVal 10 cs none

/-- Optional sign in front of the magnitude. -/
def parseIntSigned : List Char → Option Int
  | '-' :: cs => (parseIntAbs cs).map (fun n => -(n : Int))
  | '+' :: cs => (parseIntAbs cs).map (fun n => (n : Int))
  | cs => (parseIntAbs cs).map (fun n => (n : Int))

/-- JS `parseInt(s)`: skip leading whitespace, optional sign, leading digit
run; `none` models `NaN`. -/
def parseIntJS (s : String) : Option Int :=
  parseIntSigned (s.toList.dropWhile isJsWs)

/-- `parseInt(match[1]) || 10` (lines 288 and 327): an absent capture parses
to `NaN` and a captured `"0"` parses to `0`; both are falsy and fall back to
the default 10. -/
def limitOrDefault (arg : Option String) : Int :=
  match arg with
  | none => 10
  | some s =>
      match parseIntJS s with
      | none => 10
      | some n => if n = 0 then 10 else n

def dayMs : Int := 86400000

/-- `const today = new Date(); today.setHours(0, 0, 0, 0)` on a local-naive
millisecond clock: round down to the current day's midnight. -/
def localMidnight (now : Int) : Int := now - now % dayMs

/-- `User.countDocuments({ firstSeen: { $gte: t } })`: `$gte` is inclusive. -/
def countFirstSeenGte (users : List UserRec) (t : Int) : Nat :=
  users.countP (fun u => decide (t ≤ u.firstSeen))

/-- The "New Today" figure of `/stats` (lines 242-247). -/
def newUsersTodayCount (now : Int) (users : List UserRec) : Nat :=
  countFirstSeenGte users (localMidnight now)

/-- The `/stats` reply template (lines 264-275); `toLocaleString` is
abstracted to the numeric timestamp. -/
def statsText (totalUsers newToday newWeek newMonth premium clicks : Nat) (now : Int) : String :=
  "\n📊 <b>Bot Statistics</b>\n\n👥 <b>Total Users:</b> " ++ toString totalUsers ++
  "\n✨ <b>New Today:</b> " ++ toString newToday ++
  "\n📅 <b>New This Week:</b> " ++ toString newWeek ++
  "\n📆 <b>New This Month:</b> " ++ toString newMonth ++
  "\n💎 <b>Premium Users:</b> " ++ toString premium ++
  "\n🔗 <b>Total Link Clicks:</b> " ++ toString clicks ++
  "\n\nLast updated: " ++ toString now ++ "\n        "

/-- Body of `/stats` after the admin gate (lines 240-277): five `User`
queries, one `LinkClick` query, one reply.  The 7-day and 30-day windows
subtract whole days from the current instant (`setDate(getDate() - 7)`),
ignoring daylight-saving shifts. -/
def statsBody (ctx : Ctx) (msg : Msg) : List Effect :=
  let totalUsers := ctx.store.users.length
  let newToday := newUsersTodayCount ctx.now ctx.store.users
  let newWeek := countFirstSeenGte ctx.store.users (ctx.now - 7 * dayMs)
  let newMonth := countFirstSeenGte ctx.store.users (ctx.now - 30 * dayMs)
  let premium := ctx.store.users.countP (fun u => u.isPremium)
  let totalClicks := ctx.store.clicks.length
  [Effect.queryUsers, Effect.queryUsers, Effect.queryUsers, Effect.queryUsers,
   Effect.queryUsers, Effect.queryClicks,
   Effect.send msg.chatId (statsText totalUsers newToday newWeek newMonth premium totalClicks ctx.now)]

/-- `/stats` handler (lines 230-282). -/
def statsHandler (ctx : Ctx) (msg : Msg) : List Effect :=
  if adminMismatch ctx.adminId msg.sender.id then
    [Effect.send msg.chatId unauthorizedText]
  else statsBody ctx msg

/-- `LinkClick.countDocuments({ userId })` and the per-group `$sum: 1`. -/
def clickCountOf (clicks : List LinkClickRec) (wid : String) : Nat :=
  clicks.countP (fun c => c.wallpaperId == wid)

/-- The distinct wallpaper ids occurring in a click list.  `$group` emits
groups in an unspecified order; this keeps the last occurrence's position,
which the subsequent `$sort` dominates anyway. -/
def distinctKeys : List String → List String
  | [] => []
  | x :: xs => if xs.contains x then distinctKeys xs else x :: distinctKeys xs

/-- `{ $group: { _id: wallpaperId, clicks: { $sum: 1 } } }`. -/
def groupCounts (clicks : List LinkClickRec) : List (String × Nat) :=
  (distinctKeys (clicks.map (fun c => c.wallpaperId))).map
    (fun wid => (wid, clickCountOf clicks wid))

/-- `{ $sort: { clicks: -1 } }`: descending by click count. -/
def byClicksDesc (a b : String × Nat) : Prop := b.2 ≤ a.2

instance : DecidableRel byClicksDesc := fun a b => Nat.decLe b.2 a.2

/-- The `/toplinks` aggregation pipeline (lines 297-301): group, sort
descending, limit. -/
def topLinksAgg (clicks : List LinkClickRec) (limit : Nat) : List (String × Nat) :=
  ((groupCounts clicks).insertionSort byClicksDesc).take limit

def noClicksText : String := "📊 No link clicks recorded yet."

/-- The `/toplinks` reply rows (lines 308-314). -/
def renderTopLinks (limit : Int) (rows : List (String × Nat)) : String :=
  rows.enum.foldl
    (fun acc p =>
      acc ++ toString (p.1 + 1) ++ ". Wallpaper ID: <code>" ++ p.2.1 ++ "</code>\n" ++
      "   📊 Clicks: " ++ toString p.2.2 ++ "\n" ++
      "   🔗 https://t.me/WallSwipe/" ++ p.2.1 ++ "\n\n")
    ("🔥 <b>Top " ++ toString limit ++ " Performing Links</b>\n\n")

/-- Body of `/toplinks` after the admin gate (lines 296-320). -/
def toplinksBody (ctx : Ctx) (msg : Msg) (arg : Option String) : List Effect :=
  let limit := limitOrDefault arg
  let topLinks := topLinksAgg ctx.store.clicks limit.toNat
  if topLinks.length = 0 then
    [Effect.queryClicks, Effect.send msg.chatId noClicksText]
  else
    [Effect.queryClicks, Effect.send msg.chatId (renderTopLinks limit topLinks)]

/-- `/toplinks` handler (lines 285-321); `arg` is the optional `(\d+)` capture. -/
def toplinksHandler (ctx : Ctx) (msg : Msg) (arg : Option String) : List Effect :=
  if adminMismatch ctx.adminId msg.sender.id then
    [Effect.send msg.chatId unauthorizedText]
  else toplinksBody ctx msg arg

/-- `.sort({ firstSeen: -1 })` on the `User` collection. -/
def byFirstSeenDesc (a b : UserRec) : Prop := b.firstSeen ≤ a.firstSeen

instance : DecidableRel byFirstSeenDesc := fun a b => Int.decLe b.firstSeen a.firstSeen

def noUsersText : String := "📊 No users found."

/-- `${user.firstName || ''} ${user.lastName || ''}`.trim() || 'No name'`. -/
def displayName (u : UserRec) : String :=
  let name := ((u.firstName.getD "") ++ " " ++ (u.lastName.getD "")).trim
  if name = "" then "No name" else name

/-- `user.username ? '@' + username : 'No username'`. -/
def displayUsername (u : UserRec) : String :=
  if truthyOptStr u.username then "@" ++ u.username.getD "" else "No username"

/-- The `/recentusers` reply rows (lines 345-357); `toLocaleDateString` is
abstracted to the numeric timestamp. -/
def renderRecentUsers (limit : Int) (rows : List UserRec) : String :=
  rows.enum.foldl
    (fun acc p =>
      acc ++ toString (p.1 + 1) ++ ". " ++ displayName p.2 ++ " " ++
      (if p.2.isPremium then "💎" else "") ++ "\n" ++
      "   👤 " ++ displayUsername p.2 ++ "\n" ++
      "   🆔 <code>" ++ toString p.2.userId ++ "</code>\n" ++
      "   📅 Joined: " ++ toString p.2.firstSeen ++ "\n" ++
      "   🔢 Interactions: " ++ toString p.2.totalInteractions ++ "\n\n")
    ("👥 <b>Recent " ++ toString limit ++ " Users</b>\n\n")

/-- Body of `/recentusers` after the admin gate (lines 335-363). -/
def recentusersBody (ctx : Ctx) (msg : Msg) (arg : Option String) : List Effect :=
  let limit := limitOrDefault arg
  let recentUsers := (ctx.store.users.insertionSort byFirstSeenDesc).take limit.toNat
  if recentUsers.length = 0 then
    [Effect.queryUsers, Effect.send msg.chatId noUsersText]
  else
    [Effect.queryUsers, Effect.send msg.chatId (renderRecentUsers limit recentUsers)]

/-- `/recentusers` handler (lines 324-364). -/
def recentusersHandler (ctx : Ctx) (msg : Msg) (arg : Option String) : List Effect :=
  if adminMismatch ctx.adminId msg.sender.id then
    [Effect.send msg.chatId unauthorizedText]
  else recentusersBody ctx msg arg

/-- JS `query.startsWith('@')`: the first character is `c`. -/
def startsWithChar (c : Char) (s : String) : Bool :=
  match s.toList with
  | [] => false
  | d :: _ => d == c

/-- `LinkClick.countDocuments({ userId: user.userId })` (line 409). -/
def clickCountByUser (clicks : List LinkClickRec) (uid : Int) : Nat :=
  clicks.countP (fun c => c.userId == uid)

def userinfoUsageText : String := "Usage: /userinfo <user_id or @username>"

def invalidUserIdText : String := "❌ Invalid user ID."

def userNotFoundText : String := "❌ User not found."

/-- The `/userinfo` profile reply (lines 405-421); the two `toLocaleString`
dates are abstracted to numeric timestamps. -/
def renderUserInfo (u : UserRec) (clickCount : Nat) : String :=
  "👤 <b>User Information</b>\n\n" ++
  "<b>Name:</b> " ++ displayName u ++ "\n" ++
  "<b>Username:</b> " ++ displayUsername u ++ "\n" ++
  "<b>User ID:</b> <code>" ++ toString u.userId ++ "</code>\n" ++
  "<b>Premium:</b> " ++ (if u.isPremium then "💎 Yes" else "No") ++ "\n" ++
  "<b>Language:</b> " ++ u.languageCode.getD "Unknown" ++ "\n" ++
  "<b>First Seen:</b> " ++ toString u.firstSeen ++ "\n" ++
  "<b>Last Active:</b> " ++ toString u.lastActive ++ "\n" ++
  "<b>Total Interactions:</b> " ++ toString u.totalInteractions ++ "\n" ++
  "<b>Link Clicks:</b> " ++ toString clickCount ++ "\n" ++
  "<b>Wallpapers Viewed:</b> " ++ toString u.wallpapersViewed.length ++ "\n"

/-- Body of `/userinfo` after the admin gate (lines 378-427): usage message
when the argument is absent, `@`-prefixed arguments look up by username,
anything else is `parseInt`-ed (`NaN` → invalid-id reply) and looked up by
numeric id; a missed lookup earns the not-found reply. -/
def userinfoBody (ctx : Ctx) (msg : Msg) (query : Option String) : List Effect :=
  match query with
  | none => [Effect.send msg.chatId userinfoUsageText]
  | some q =>
      if startsWithChar '@' q then
        match ctx.store.users.find? (fun u => u.username == some (q.drop 1)) with
        | none => [Effect.queryUsers, Effect.send msg.chatId userNotFoundText]
        | some u =>
            [Effect.queryUsers, Effect.queryClicks,
             Effect.send msg.chatId (renderUserInfo u (clickCountByUser ctx.store.clicks u.userId))]
      else
        match parseIntJS q with
        | none => [Effect.send msg.chatId invalidUserIdText]
        | some n =>
            match ctx.store.users.find? (fun u => u.userId == n) with
            | none => [Effect.queryUsers, Effect.send msg.chatId userNotFoundText]
            | some u =>
                [Effect.queryUsers, Effect.queryClicks,
                 Effect.send msg.chatId (renderUserInfo u (clickCountByUser ctx.store.clicks u.userId))]

/-- `/userinfo` handler (lines 367-428); `query` is the optional `(.+)` capture. -/
def userinfoHandler (ctx : Ctx) (msg : Msg) (query : Option String) : List Effect :=
  if adminMismatch ctx.adminId msg.sender.id then
    [Effect.send msg.chatId unauthorizedText]
  else userinfoBody ctx msg query

/-- The sequential broadcast loop (lines 449-459): per recipient, a
successful `sendMessage` bumps the success tally and is followed by the
50 ms rate-limit delay; a rejected send is caught, bumps the failure tally,
and the loop continues with the next recipient.  Returns
(successCount, failCount, effect trace). -/
def broadcastLoop (sendOk : Int → Bool) (text : String) : List Int → Nat × Nat × List Effect
  | [] => (0, 0, [])
  | uid :: rest =>
      if sendOk uid then
        let r := broadcastLoop sendOk text rest
        (r.1 + 1, r.2.1, Effect.send uid text :: Effect.delay 50 :: r.2.2)
      else
        let r := broadcastLoop sendOk text rest
        (r.1, r.2.1 + 1, Effect.sendFail uid text :: r.2.2)

/-- `✅ Broadcast complete! ...` tally reply (lines 461-465). -/
def broadcastDoneText (successCount failCount : Nat) : String :=
  "✅ Broadcast complete!\n\n✔️ Sent: " ++ toString successCount ++
  "\n❌ Failed: " ++ toString failCount

/-- Body of `/broadcast` after the admin gate (lines 442-469): read all user
ids, announce the start, run the loop, report the final tally. -/
def broadcastBody (ctx : Ctx) (msg : Msg) (text : String) : List Effect :=
  let uids := ctx.store.users.map (fun u => u.userId)
  let r := broadcastLoop ctx.sendOk text uids
  [Effect.queryUsers,
   Effect.send msg.chatId ("📢 Starting broadcast to " ++ toString uids.length ++ " users...")]
  ++ r.2.2
  ++ [Effect.send msg.chatId (broadcastDoneText r.1 r.2.1)]

/-- `/broadcast` handler (lines 431-470); `text` is the `(.+)` capture. -/
def broadcastHandler (ctx : Ctx) (msg : Msg) (text : String) : List Effect :=
  if adminMismatch ctx.adminId msg.sender.id then
    [Effect.send msg.chatId unauthorizedText]
  else broadcastBody ctx msg text

def adminHelpText : String :=
  "\n🔧 <b>Admin Commands</b>\n\n📊 <b>/stats</b> - Get overall bot statistics\n" ++
  "🔥 <b>/toplinks [limit]</b> - Top performing wallpaper links (default: 10)\n" ++
  "👥 <b>/recentusers [limit]</b> - Recent users list (default: 10)\n" ++
  "🔍 <b>/userinfo &lt;user_id/@username&gt;</b> - Get specific user details\n" ++
  "📢 <b>/broadcast &lt;message&gt;</b> - Send message to all users\n" ++
  "❓ <b>/adminhelp</b> - Show this help message\n\nExamples:\n• /toplinks 20\n" ++
  "• /recentusers 15\n• /userinfo @username\n• /userinfo 123456789\n" ++
  "• /broadcast Hello everyone! 🎨\n    "

/-- `/adminhelp` handler (lines 473-501): a non-admin caller gets no reply at
all, unlike the other admin commands. -/
def adminhelpHandler (ctx : Ctx) (msg : Msg) : List Effect :=
  if adminMismatch ctx.adminId msg.sender.id then []
  else [Effect.send msg.chatId adminHelpText]

def welcomeTextBase : String :=
  "🎨 Welcome to WallSwipe! 🎨\n\nDiscover amazing wallpapers for your device.\n" ++
  "Join our channel to get daily wallpaper updates!"

/-- `/start` handler (lines 167-227): `match[1].trim()` yields the start
parameter; an empty (falsy) parameter means no wallpaper id, otherwise the
user upsert is followed by one `trackLinkClick` and the reply gains the
view-wallpaper button line. -/
def startHandler (ctx : Ctx) (msg : Msg) (g1 : String) : Store × List Effect :=
  let startParam := jsTrim g1
  let wallpaperId : Option String := if startParam != "" then some startParam else none
  let s1 := saveUserData ctx.now msg.sender wallpaperId ctx.store
  let s2 :=
    match wallpaperId with
    | some w => trackLinkClick ctx.now msg.sender.id msg.sender.username w s1
    | none => s1
  let text :=
    match wallpaperId with
    | some _ => welcomeTextBase ++ "\n\n✨ Check out this amazing wallpaper!"
    | none => welcomeTextBase
  (s2, [Effect.send msg.chatId text])

/-- Does `cs` start with the literal `pat`? -/
def startsWithCs : List Char → List Char → Bool
  | [], _ => true
  | _ :: _, [] => false
  | p :: ps, c :: cs => p == c && startsWithCs ps cs

/-- A character `.` can match in a JS regex: anything but a line terminator. -/
def notNewline (c : Char) : Bool := c.toNat != 10 && c.toNat != 13

/-- Unanchored search for a literal pattern (`/\/stats/`, `/\/adminhelp/`). -/
def containsPat (pat : List Char) : List Char → Bool
  | [] => startsWithCs pat []
  | c :: cs => startsWithCs pat (c :: cs) || containsPat pat cs

/-- `/\/start(.*)/`: at the earliest occurrence of `/start`, capture the rest
of the line (possibly empty). -/
def scanStart : List Char → Option String
  | [] => none
  | c :: cs =>
      if startsWithCs "/start".toList (c :: cs) then
        some (String.mk (((c :: cs).drop 6).takeWhile notNewline))
      else scanStart cs

/-- The optional `(?:\s+(\d+))?` suffix of `/toplinks` and `/recentusers`:
a greedy whitespace run must be followed by a digit for the group to
capture; whitespace is never a digit, so no backtracking case arises. -/
def digitsCapture (rest : List Char) : Option String :=
  let w := rest.takeWhile isJsWs
  if w.length = 0 then none
  else
    let ds := (rest.drop w.length).takeWhile Char.isDigit
    if ds.length = 0 then none else some (String.mk ds)

/-- The optional `(?:\s+(.+))?` suffix of `/userinfo`.  If a non-whitespace
character follows the greedy whitespace run, the capture runs from it to the
end of its line.  If only whitespace remains, the engine backtracks `\s+`
until `.` can match, so the capture becomes the last non-newline whitespace
character, if any. -/
def wsDotCapture (rest : List Char) : Option String :=
  let w := rest.takeWhile isJsWs
  if w.length = 0 then none
  else if w.length < rest.length then
    some (String.mk ((rest.drop w.length).takeWhile notNewline))
  else
    match (w.filter notNewline).getLast? with
    | some c => some (String.mk [c])
    | none => none

/-- `/\/toplinks(?:\s+(\d+))?/`: the literal always matches at its earliest
occurrence; the group is optional. -/
def scanToplinks : List Char → Option (Option String)
  | [] => none
  | c :: cs =>
      if startsWithCs "/toplinks".toList (c :: cs) then
        some (digitsCapture ((c :: cs).drop 9))
      else scanToplinks cs

/-- `/\/recentusers(?:\s+(\d+))?/`. -/
def scanRecentusers : List Char → Option (Option String)
  | [] => none
  | c :: cs =>
      if startsWithCs "/recentusers".toList (c :: cs) then
        some (digitsCapture ((c :: cs).drop 12))
      else scanRecentusers cs

/-- `/\/userinfo(?:\s+(.+))?/`. -/
def scanUserinfo : List Char → Option (Option String)
  | [] => none
  | c :: cs =>
      if startsWithCs "/userinfo".toList (c :: cs) then
        some (wsDotCapture ((c :: cs).drop 9))
      else scanUserinfo cs

/-- `/\/broadcast (.+)/`: the literal including its trailing space must be
followed by at least one non-newline character; otherwise the engine keeps
searching later start positions. -/
def scanBroadcast : List Char → Option String
  | [] => none
  | c :: cs =>
      if startsWithCs "/broadcast ".toList (c :: cs) then
        let cap := ((c :: cs).drop 11).takeWhile notNewline
        if cap.length != 0 then some (String.mk cap) else scanBroadcast cs
      else scanBroadcast cs

/-- The command router: each `bot.onText` registration tests its pattern
independently against the message text; handlers whose pattern matches run
in registration order (lines 167, 230, 285, 324, 367, 431, 473), later
handlers seeing any store write made by `/start`.  A text matching no
pattern invokes nothing. -/
def route (ctx : Ctx) (msg : Msg) (text : String) : Store × List Effect :=
  let cs := text.toList
  let r1 :=
    match scanStart cs with
    | some g1 => startHandler ctx msg g1
    | none => (ctx.store, ([] : List Effect))
  let ctx1 : Ctx := { ctx with store := r1.1 }
  let e2 := if containsPat "/stats".toList cs then statsHandler ctx1 msg else []
  let e3 :=
    match scanToplinks cs with
    | some arg => toplinksHandler ctx1 msg arg
    | none => []
  let e4 :=
    match scanRecentusers cs with
    | some arg => recentusersHandler ctx1 msg arg
    | none => []
  let e5 :=
    match scanUserinfo cs with
    | some q => userinfoHandler ctx1 msg q
    | none => []
  let e6 :=
    match scanBroadcast cs with
    | some t => broadcastHandler ctx1 msg t
    | none => []
  let e7 := if containsPat "/adminhelp".toList cs then adminhelpHandler ctx1 msg else []
  (r1.1, r1.2 ++ e2 ++ e3 ++ e4 ++ e5 ++ e6 ++ e7)

instance : IsTotal (String × Nat) byClicksDesc :=
  ⟨fun a b => Nat.le_total b.2 a.2⟩

instance : IsTrans (String × Nat) byClicksDesc :=
  ⟨fun _ _ _ h1 h2 => Nat.le_trans h2 h1⟩

instance : IsTotal UserRec byFirstSeenDesc :=
  ⟨fun a b => Int.le_total b.firstSeen a.firstSeen⟩

instance : IsTrans UserRec byFirstSeenDesc :=
  ⟨fun _ _ _ h1 h2 => Int.le_trans h2 h1⟩

/-- The empty database. -/
def emptyStore : Store := ⟨[], []⟩

/-- A plain sender profile with numeric id 7 and nothing else supplied. -/
def sampleSender : TgUser := ⟨7, none, none, none, none, none, none⟩

/-- A message from `sampleSender` in chat 1. -/
def sampleMsg : Msg := ⟨1, sampleSender⟩

/-- A deployment with `ADMIN_USER_ID=42` against an empty database. -/
def ctxGated : Ctx := ⟨some "42", 0, emptyStore, fun _ => true⟩

/-- A deployment with no `ADMIN_USER_ID` against an empty database. -/
def ctxOpen : Ctx := ⟨none, 0, emptyStore, fun _ => true⟩

/-- Click fixture with counts A:5, B:3, C:3, D:1. -/
def clicksFixture : List LinkClickRec :=
  [⟨"A", 1, none, 0⟩, ⟨"B", 2, none, 1⟩, ⟨"C", 3, none, 2⟩,
   ⟨"A", 4, none, 3⟩, ⟨"B", 5, none, 4⟩, ⟨"C", 1, none, 5⟩,
   ⟨"A", 2, none, 6⟩, ⟨"B", 3, none, 7⟩, ⟨"C", 4, none, 8⟩,
   ⟨"A", 5, none, 9⟩, ⟨"D", 1, none, 10⟩, ⟨"A", 6, none, 11⟩]

/-- Three interactions of user 7: the same wallpaper id twice under varying
profiles, then one with no wallpaper id. -/
def seqFixture : List Interaction :=
  [⟨100, ⟨7, none, none, none, none, none, none⟩, some "wp1"⟩,
   ⟨200, ⟨7, some "bob", some "Bob", none, some "en", some false, some true⟩, some "wp1"⟩,
   ⟨300, ⟨7, none, none, none, none, none, none⟩, none⟩]

/-! ## Theorems -/

theorem adminMismatch_some {a : String} {adminId : Option String} {uid : Int}
    (h : adminId = some a) (ha : a ≠ "") (hu : toString uid ≠ a) :
    adminMismatch adminId uid = true := by
  subst h
  simp [adminMismatch, ha, hu]

theorem adminMismatch_none {uid : Int} : adminMismatch none uid = false := rfl

/-- C2: whenever a non-empty admin identifier is configured and the caller's
numeric identifier rendered as a string differs from it, each of the six
admin handlers replies exactly the "Unauthorized" message and performs no
store query — except `/adminhelp`, which produces no effect at all; when no
admin identifier is configured, every handler proceeds to its body for every
caller. -/
theorem c2_admin_gate (ctx : Ctx) (msg : Msg) :
    (∀ a, ctx.adminId = some a → a ≠ "" → toString msg.sender.id ≠ a →
      statsHandler ctx msg = [Effect.send msg.chatId unauthorizedText]
      ∧ (∀ arg, toplinksHandler ctx msg arg = [Effect.send msg.chatId unauthorizedText])
      ∧ (∀ arg, recentusersHandler ctx msg arg = [Effect.send msg.chatId unauthorizedText])
      ∧ (∀ q, userinfoHandler ctx msg q = [Effect.send msg.chatId unauthorizedText])
      ∧ (∀ t, broadcastHandler ctx msg t = [Effect.send msg.chatId unauthorizedText])
      ∧ adminhelpHandler ctx msg = [])
    ∧ (ctx.adminId = none →
      statsHandler ctx msg = statsBody ctx msg
      ∧ (∀ arg, toplinksHandler ctx msg arg = toplinksBody ctx msg arg)
      ∧ (∀ arg, recentusersHandler ctx msg arg = recentusersBody ctx msg arg)
      ∧ (∀ q, userinfoHandler ctx msg q = userinfoBody ctx msg q)
      ∧ (∀ t, broadcastHandler ctx msg t = broadcastBody ctx msg t)
      ∧ adminhelpHandler ctx msg = [Effect.send msg.chatId adminHelpText]) := by
  constructor
  · intro a h ha hu
    have hm := adminMismatch_some h ha hu
    refine ⟨?_, fun arg => ?_, fun arg => ?_, fun q => ?_, fun t => ?_, ?_⟩ <;>
      simp [statsHandler, toplinksHandler, recentusersHandler, userinfoHandler,
            broadcastHandler, adminhelpHandler, hm]
  · intro h
    have hm : adminMismatch ctx.adminId msg.sender.id = false := by
      rw [h]; exact adminMismatch_none
    refine ⟨?_, fun arg => ?_, fun arg => ?_, fun q => ?_, fun t => ?_, ?_⟩ <;>
      simp [statsHandler, toplinksHandler, recentusersHandler, userinfoHandler,
            broadcastHandler, adminhelpHandler, hm]

/-- C2 witness: with `ADMIN_USER_ID=42`, caller 7 is rejected by `/stats`
(one unauthorized reply, no query) and ignored by `/adminhelp`. -/
theorem c2_admin_gate_witness :
    statsHandler ctxGated sampleMsg = [Effect.send 1 unauthorizedText]
    ∧ userinfoHandler ctxGated sampleMsg (some "@x") = [Effect.send 1 unauthorizedText]
    ∧ adminhelpHandler ctxGated sampleMsg = [] := by
  have h := (c2_admin_gate ctxGated sampleMsg).1 "42" rfl (by decide) (by decide)
  exact ⟨h.1, h.2.2.2.1 (some "@x"), h.2.2.2.2.2⟩

theorem saveUserData_clicks (now : Int) (sender : TgUser) (wid : Option String) (s : Store) :
    (saveUserData now sender wid s).clicks = s.clicks := by
  unfold saveUserData
  split <;> rfl

/-- C3: `/start` with a parameter that trims to empty creates no LinkClick;
with a non-empty trimmed parameter it appends exactly one LinkClick carrying
that parameter as wallpaper id, the sender's numeric id, and the sender's
username snapshot. -/
theorem c3_start_linkclick (ctx : Ctx) (msg : Msg) (g1 : String) :
    (jsTrim g1 = "" → ((startHandler ctx msg g1).1).clicks = ctx.store.clicks)
    ∧ (jsTrim g1 ≠ "" → ((startHandler ctx msg g1).1).clicks =
        ctx.store.clicks ++
          [{ wallpaperId := jsTrim g1, userId := msg.sender.id,
             username := jsStrOrNull msg.sender.username, timestamp := ctx.now }]) := by
  constructor <;> intro h <;>
    simp [startHandler, trackLinkClick, saveUserData_clicks, h]

/-- C3 witness: `/start` (empty parameter) leaves the LinkClick log alone;
`/start wp123` (captured group `" wp123"`) appends exactly one record. -/
theorem c3_start_linkclick_witness :
    ((startHandler ctxOpen sampleMsg "").1).clicks = ctxOpen.store.clicks
    ∧ ((startHandler ctxOpen sampleMsg " wp123").1).clicks =
        ctxOpen.store.clicks ++
          [{ wallpaperId := jsTrim " wp123", userId := sampleMsg.sender.id,
             username := jsStrOrNull sampleMsg.sender.username, timestamp := ctxOpen.now }] :=
  ⟨(c3_start_linkclick ctxOpen sampleMsg "").1 (by decide),
   (c3_start_linkclick ctxOpen sampleMsg " wp123").2 (by decide)⟩

/-- C5 counterexample: it is not true that every interaction with an existing
record overwrites all six profile fields with the latest supplied values —
the bot flag is the exception.  A record created with `is_bot = false` keeps
`isBot = false` even when the next interaction supplies `is_bot = true`. -/
theorem c5_profile_overwrite_counterexample :
    ¬ (∀ (now : Int) (sender : TgUser) (wid : Option String) (r : UserRec),
        (updateRec now sender wid r).username = jsStrOrNull sender.username
        ∧ (updateRec now sender wid r).firstName = jsStrOrNull sender.first_name
        ∧ (updateRec now sender wid r).lastName = jsStrOrNull sender.last_name
        ∧ (updateRec now sender wid r).languageCode = jsStrOrNull sender.language_code
        ∧ (updateRec now sender wid r).isBot = sender.is_bot.getD false
        ∧ (updateRec now sender wid r).isPremium = sender.is_premium.getD false) := by
  intro h
  have hx := (h 1 ⟨7, none, none, none, none, some true, none⟩ none
      ⟨7, none, none, none, none, false, false, 0, 0, 1, []⟩).2.2.2.2.1
  exact absurd hx (by decide)

/-- C5 amended: on an interaction with an existing record, `saveUserData`
overwrites five profile fields — username, first name, last name, language
code, premium flag — with the latest supplied values and refreshes
`lastActive`, while the bot flag (and `firstSeen`) keep the value stored at
creation. -/
theorem c5_profile_overwrite (now : Int) (sender : TgUser) (wid : Option String) (r : UserRec) :
    (updateRec now sender wid r).username = jsStrOrNull sender.username
    ∧ (updateRec now sender wid r).firstName = jsStrOrNull sender.first_name
    ∧ (updateRec now sender wid r).lastName = jsStrOrNull sender.last_name
    ∧ (updateRec now sender wid r).languageCode = jsStrOrNull sender.language_code
    ∧ (updateRec now sender wid r).isPremium = sender.is_premium.getD false
    ∧ (updateRec now sender wid r).lastActive = now
    ∧ (updateRec now sender wid r).isBot = r.isBot
    ∧ (updateRec now sender wid r).firstSeen = r.firstSeen := by
  unfold updateRec
  cases wid <;> simp
  split <;> simp

/-- C8: the "New Today" count of `/stats` filters on
`firstSeen >= localMidnight(now)` with an inclusive bound: a user first seen
exactly at local midnight is counted, a user first seen at 23:59:00 of the
prior day (one minute before midnight) is not. -/
theorem c8_stats_midnight_boundary (now : Int) (users : List UserRec) (u : UserRec) :
    (u.firstSeen = localMidnight now →
       newUsersTodayCount now (users ++ [u]) = newUsersTodayCount now users + 1)
    ∧ (u.firstSeen = localMidnight now - 60000 →
       newUsersTodayCount now (users ++ [u]) = newUsersTodayCount now users) := by
  constructor
  · intro h
    simp [newUsersTodayCount, countFirstSeenGte, List.countP_append, List.countP_cons, h]
  · intro h
    have hlt : ¬ (localMidnight now ≤ localMidnight now - 60000) := by omega
    simp [newUsersTodayCount, countFirstSeenGte, List.countP_append, List.countP_cons, h, hlt]

/-- C8 witness at a concrete clock value: a midnight-exact user raises the
count, a 23:59-prior-day user does not. -/
theorem c8_stats_midnight_boundary_witness :
    newUsersTodayCount 1700000000000
        ([] ++ [⟨7, none, none, none, none, false, false, localMidnight 1700000000000, 0, 1, []⟩])
      = newUsersTodayCount 1700000000000 [] + 1
    ∧ newUsersTodayCount 1700000000000
        ([] ++ [⟨8, none, none, none, none, false, false, localMidnight 1700000000000 - 60000, 0, 1, []⟩])
      = newUsersTodayCount 1700000000000 [] :=
  ⟨(c8_stats_midnight_boundary 1700000000000 []
      ⟨7, none, none, none, none, false, false, localMidnight 1700000000000, 0, 1, []⟩).1 rfl,
   (c8_stats_midnight_boundary 1700000000000 []
      ⟨8, none, none, none, none, false, false, localMidnight 1700000000000 - 60000, 0, 1, []⟩).2 rfl⟩

/-- C9: because the parsed limit goes through `parseInt(match[1]) || 10`, the
explicit argument `0` is falsy and replaced by the default: `/toplinks 0` and
`/recentusers 0` behave exactly like the bare commands, with limit 10. -/
theorem c9_zero_limit_is_default :
    limitOrDefault (some "0") = 10
    ∧ limitOrDefault none = 10
    ∧ (∀ ctx msg, toplinksHandler ctx msg (some "0") = toplinksHandler ctx msg none)
    ∧ (∀ ctx msg, recentusersHandler ctx msg (some "0") = recentusersHandler ctx msg none) := by
  have h0 : limitOrDefault (some "0") = limitOrDefault none := by decide
  refine ⟨by decide, by decide, fun ctx msg => ?_, fun ctx msg => ?_⟩
  · unfold toplinksHandler toplinksBody
    rw [h0]
  · unfold recentusersHandler recentusersBody
    rw [h0]

/-- C10: the bare text `/broadcast` (no space, no argument) matches none of
the seven registered patterns — `/\/broadcast (.+)/` requires a space and at
least one following character — so routing it is a complete silent no-op:
no reply, no store access, no outbound message. -/
theorem c10_bare_broadcast_noop (ctx : Ctx) (msg : Msg) :
    scanStart "/broadcast".toList = none
    ∧ containsPat "/stats".toList "/broadcast".toList = false
    ∧ scanToplinks "/broadcast".toList = none
    ∧ scanRecentusers "/broadcast".toList = none
    ∧ scanUserinfo "/broadcast".toList = none
    ∧ scanBroadcast "/broadcast".toList = none
    ∧ containsPat "/adminhelp".toList "/broadcast".toList = false
    ∧ route ctx msg "/broadcast" = (ctx.store, []) := by
  have h1 : scanStart "/broadcast".toList = none := by decide
  have h2 : containsPat "/stats".toList "/broadcast".toList = false := by decide
  have h3 : scanToplinks "/broadcast".toList = none := by decide
  have h4 : scanRecentusers "/broadcast".toList = none := by decide
  have h5 : scanUserinfo "/broadcast".toList = none := by decide
  have h6 : scanBroadcast "/broadcast".toList = none := by decide
  have h7 : containsPat "/adminhelp".toList "/broadcast".toList = false := by decide
  refine ⟨h1, h2, h3, h4, h5, h6, h7, ?_⟩
  have g1 : scanStart ['/', 'b', 'r', 'o', 'a', 'd', 'c', 'a', 's', 't'] = none := by decide
  have g2 : containsPat ['/', 's', 't', 'a', 't', 's']
      ['/', 'b', 'r', 'o', 'a', 'd', 'c', 'a', 's', 't'] = false := by decide
  have g3 : scanToplinks ['/', 'b', 'r', 'o', 'a', 'd', 'c', 'a', 's', 't'] = none := by decide
  have g4 : scanRecentusers ['/', 'b', 'r', 'o', 'a', 'd', 'c', 'a', 's', 't'] = none := by decide
  have g5 : scanUserinfo ['/', 'b', 'r', 'o', 'a', 'd', 'c', 'a', 's', 't'] = none := by decide
  have g6 : scanBroadcast ['/', 'b', 'r', 'o', 'a', 'd', 'c', 'a', 's', 't'] = none := by decide
  have g7 : containsPat ['/', 'a', 'd', 'm', 'i', 'n', 'h', 'e', 'l', 'p']
      ['/', 'b', 'r', 'o', 'a', 'd', 'c', 'a', 's', 't'] = false := by decide
  simp [route, g1, g2, g3, g4, g5, g6, g7]

theorem broadcastLoop_success (sendOk : Int → Bool) (text : String) :
    ∀ uids : List Int, (broadcastLoop sendOk text uids).1 = uids.countP sendOk := by
  intro uids
  induction uids with
  | nil => rfl
  | cons u us ih =>
      by_cases h : sendOk u = true <;>
        simp [broadcastLoop, List.countP_cons, h, ih]

theorem broadcastLoop_fail (sendOk : Int → Bool) (text : String) :
    ∀ uids : List Int,
      (broadcastLoop sendOk text uids).2.1 = uids.countP (fun u => !sendOk u) := by
  intro uids
  induction uids with
  | nil => rfl
  | cons u us ih =>
      by_cases h : sendOk u = true <;>
        simp [broadcastLoop, List.countP_cons, h, ih]

theorem broadcastLoop_trace (sendOk : Int → Bool) (text : String) :
    ∀ uids : List Int,
      (broadcastLoop sendOk text uids).2.2 =
        (uids.map (fun u =>
          if sendOk u then [Effect.send u text, Effect.delay 50]
          else [Effect.sendFail u text])).flatten := by
  intro uids
  induction uids with
  | nil => rfl
  | cons u us ih =>
      by_cases h : sendOk u = true <;>
        simp [broadcastLoop, h, ih]

/-- C4: the broadcast loop processes recipients one at a time, in store
order: a successful send contributes its delivery followed by the fixed
50 ms delay, a failed send contributes only its caught failure, and neither
stops the loop; every recipient the gateway accepts receives the text, the
success tally counts accepted sends, the failure tally the rejected ones,
the two sum to the number of recipients, and the handler body reports
exactly these two numbers back to the invoking chat. -/
theorem c4_broadcast_tally (sendOk : Int → Bool) (text : String) (uids : List Int) :
    (broadcastLoop sendOk text uids).1 = uids.countP sendOk
    ∧ (broadcastLoop sendOk text uids).2.1 = uids.countP (fun u => !sendOk u)
    ∧ (broadcastLoop sendOk text uids).1 + (broadcastLoop sendOk text uids).2.1 = uids.length
    ∧ (broadcastLoop sendOk text uids).2.2 =
        (uids.map (fun u =>
          if sendOk u then [Effect.send u text, Effect.delay 50]
          else [Effect.sendFail u text])).flatten
    ∧ (∀ u ∈ uids, sendOk u = true →
        Effect.send u text ∈ (broadcastLoop sendOk text uids).2.2)
    ∧ (∀ ctx msg, ctx.sendOk = sendOk → ctx.store.users.map (fun u => u.userId) = uids →
        broadcastBody ctx msg text =
          [Effect.queryUsers,
           Effect.send msg.chatId
             ("📢 Starting broadcast to " ++ toString uids.length ++ " users...")]
          ++ (broadcastLoop sendOk text uids).2.2
          ++ [Effect.send msg.chatId
                (broadcastDoneText (uids.countP sendOk) (uids.countP (fun u => !sendOk u)))]) := by
  refine ⟨broadcastLoop_success sendOk text uids, broadcastLoop_fail sendOk text uids, ?_, ?_, ?_, ?_⟩
  · rw [broadcastLoop_success, broadcastLoop_fail]
    induction uids with
    | nil => rfl
    | cons u us ih =>
        by_cases h : sendOk u = true <;>
          simp [List.countP_cons, h] <;> omega
  · exact broadcastLoop_trace sendOk text uids
  · intro u hu hok
    rw [broadcastLoop_trace]
    refine List.mem_flatten.mpr ⟨[Effect.send u text, Effect.delay 50], ?_, by simp⟩
    refine List.mem_map.mpr ⟨u, hu, ?_⟩
    simp [hok]
  · intro ctx msg hok huids
    simp only [broadcastBody, huids, hok]
    rw [broadcastLoop_success, broadcastLoop_fail]

/-- C4 witness: three recipients with the second send failing yield the
2 success / 1 failure tally and the third recipient still gets the text. -/
theorem c4_broadcast_tally_witness :
    (broadcastLoop (fun u => u != 20) "hi" [10, 20, 30]).1 = 2
    ∧ (broadcastLoop (fun u => u != 20) "hi" [10, 20, 30]).2.1 = 1
    ∧ Effect.send 30 "hi" ∈ (broadcastLoop (fun u => u != 20) "hi" [10, 20, 30]).2.2 :=
  ⟨((c4_broadcast_tally (fun u => u != 20) "hi" [10, 20, 30]).1).trans (by decide),
   ((c4_broadcast_tally (fun u => u != 20) "hi" [10, 20, 30]).2.1).trans (by decide),
   (c4_broadcast_tally (fun u => u != 20) "hi" [10, 20, 30]).2.2.2.2.1 30 (by decide) (by decide)⟩

theorem mem_distinctKeys {x : String} : ∀ {l : List String}, x ∈ distinctKeys l ↔ x ∈ l := by
  intro l
  induction l with
  | nil => simp [distinctKeys]
  | cons y ys ih =>
      by_cases h : ys.contains y = true
      · have hy : y ∈ ys := by simpa using h
        rw [distinctKeys, if_pos h, ih]
        constructor
        · exact fun hx => List.mem_cons_of_mem y hx
        · intro hx
          rcases List.mem_cons.mp hx with he | hm
          · exact he ▸ hy
          · exact hm
      · rw [distinctKeys, if_neg h]
        simp [ih]

/-- C6: the `/toplinks` pipeline takes at most `limit` rows and never more
than the number of distinct wallpaper ids, the rows are sorted descending by
click count, every row is a true (wallpaperId, occurrence-count) group of the
click log, an empty log yields the "no clicks yet" reply instead, and on the
fixture {A:5, B:3, C:3, D:1} with limit 3 the result is exactly three rows:
A with 5 first, then B and C with 3 each in some order. -/
theorem c6_toplinks_aggregation (clicks : List LinkClickRec) (limit : Nat) :
    (topLinksAgg clicks limit).length = min limit (groupCounts clicks).length
    ∧ List.Sorted byClicksDesc (topLinksAgg clicks limit)
    ∧ (∀ p ∈ topLinksAgg clicks limit,
        p.2 = clickCountOf clicks p.1 ∧ p.1 ∈ clicks.map (fun c => c.wallpaperId))
    ∧ (∀ ctx msg arg, ctx.store.clicks = [] →
        toplinksBody ctx msg arg = [Effect.queryClicks, Effect.send msg.chatId noClicksText])
    ∧ (topLinksAgg clicksFixture 3).length = 3
    ∧ (topLinksAgg clicksFixture 3).head? = some ("A", 5)
    ∧ (topLinksAgg clicksFixture 3 = [("A", 5), ("B", 3), ("C", 3)]
       ∨ topLinksAgg clicksFixture 3 = [("A", 5), ("C", 3), ("B", 3)]) := by
  refine ⟨?_, ?_, ?_, ?_, by decide, by decide, by decide⟩
  · unfold topLinksAgg
    rw [List.length_take, List.length_insertionSort]
  · exact List.Pairwise.sublist (List.take_sublist limit _)
      (List.sorted_insertionSort byClicksDesc (groupCounts clicks))
  · intro p hp
    have hp1 : p ∈ (groupCounts clicks).insertionSort byClicksDesc := List.mem_of_mem_take hp
    have hp2 : p ∈ groupCounts clicks :=
      (List.perm_insertionSort byClicksDesc (groupCounts clicks)).subset hp1
    unfold groupCounts at hp2
    obtain ⟨wid, hwid, rfl⟩ := List.mem_map.mp hp2
    exact ⟨rfl, mem_distinctKeys.mp hwid⟩
  · intro ctx msg arg h
    simp [toplinksBody, h, topLinksAgg, groupCounts, distinctKeys, List.insertionSort]

/-- C6 witness: the row ("A", 5) of the fixture run is a true group count,
and an empty click log earns the "no clicks yet" reply. -/
theorem c6_toplinks_aggregation_witness :
    ((("A", 5) : String × Nat).2 = clickCountOf clicksFixture ("A", 5).1
      ∧ (("A", 5) : String × Nat).1 ∈ clicksFixture.map (fun c => c.wallpaperId))
    ∧ toplinksBody ctxOpen sampleMsg none =
        [Effect.queryClicks, Effect.send sampleMsg.chatId noClicksText] :=
  ⟨(c6_toplinks_aggregation clicksFixture 3).2.2.1 ("A", 5) (by decide),
   (c6_toplinks_aggregation clicksFixture 3).2.2.2.1 ctxOpen sampleMsg none rfl⟩

/-- C7: `/userinfo` with an `@`-prefixed argument looks up by username and
replies not-found on a miss; any other argument goes through `parseInt`,
earning the invalid-id reply when unparseable and the not-found reply when
the parsed id matches no record; and for every possible argument (including
a missing one) the handler body produces a reply — the embedding is a total
function, so no input crashes it or leaves an unreplied state. -/
theorem c7_userinfo_errors (ctx : Ctx) (msg : Msg) (q : String) :
    (startsWithChar '@' q = true →
      ctx.store.users.find? (fun u => u.username == some (q.drop 1)) = none →
      userinfoBody ctx msg (some q) =
        [Effect.queryUsers, Effect.send msg.chatId userNotFoundText])
    ∧ (startsWithChar '@' q = false → parseIntJS q = none →
      userinfoBody ctx msg (some q) = [Effect.send msg.chatId invalidUserIdText])
    ∧ (startsWithChar '@' q = false → ∀ n, parseIntJS q = some n →
      ctx.store.users.find? (fun u => u.userId == n) = none →
      userinfoBody ctx msg (some q) =
        [Effect.queryUsers, Effect.send msg.chatId userNotFoundText])
    ∧ (∀ query : Option String, ∃ t, Effect.send msg.chatId t ∈ userinfoBody ctx msg query) := by
  refine ⟨?_, ?_, ?_, ?_⟩
  · intro hq hf
    simp [userinfoBody, hq, hf]
  · intro hq hp
    simp [userinfoBody, hq, hp]
  · intro hq n hp hf
    simp [userinfoBody, hq, hp, hf]
  · intro query
    match query with
    | none => exact ⟨userinfoUsageText, by simp [userinfoBody]⟩
    | some q' =>
        by_cases hq : startsWithChar '@' q' = true
        · cases hf : ctx.store.users.find? (fun u => u.username == some (q'.drop 1)) with
          | none => exact ⟨userNotFoundText, by simp [userinfoBody, hq, hf]⟩
          | some u =>
              exact ⟨renderUserInfo u (clickCountByUser ctx.store.clicks u.userId),
                     by simp [userinfoBody, hq, hf]⟩
        · rw [Bool.not_eq_true] at hq
          cases hp : parseIntJS q' with
          | none => exact ⟨invalidUserIdText, by simp [userinfoBody, hq, hp]⟩
          | some n =>
              cases hf : ctx.store.users.find? (fun u => u.userId == n) with
              | none => exact ⟨userNotFoundText, by simp [userinfoBody, hq, hp, hf]⟩
              | some u =>
                  exact ⟨renderUserInfo u (clickCountByUser ctx.store.clicks u.userId),
                         by simp [userinfoBody, hq, hp, hf]⟩

/-- C7 witness: `/userinfo @nonexistent` replies not-found and
`/userinfo notanumber` replies invalid-id against the empty store. -/
theorem c7_userinfo_errors_witness :
    userinfoBody ctxOpen sampleMsg (some "@nonexistent") =
      [Effect.queryUsers, Effect.send sampleMsg.chatId userNotFoundText]
    ∧ userinfoBody ctxOpen sampleMsg (some "notanumber") =
      [Effect.send sampleMsg.chatId invalidUserIdText] :=
  ⟨(c7_userinfo_errors ctxOpen sampleMsg "@nonexistent").1 (by decide) rfl,
   (c7_userinfo_errors ctxOpen sampleMsg "notanumber").2.1 (by decide) (by decide)⟩

theorem updateRec_userId (n : Int) (s : TgUser) (w : Option String) (r : UserRec) :
    (updateRec n s w r).userId = r.userId := by
  unfold updateRec
  cases w with
  | none => rfl
  | some v => dsimp only; split <;> rfl

theorem updateRec_total (n : Int) (s : TgUser) (w : Option String) (r : UserRec) :
    (updateRec n s w r).totalInteractions = r.totalInteractions + 1 := by
  unfold updateRec
  cases w with
  | none => rfl
  | some v => dsimp only; split <;> rfl

theorem updateRec_wv_mem (n : Int) (s : TgUser) (w : Option String) (r : UserRec) (x : String) :
    x ∈ (updateRec n s w r).wallpapersViewed ↔
      x ∈ r.wallpapersViewed ∨ (w = some x ∧ x ≠ "") := by
  unfold updateRec
  cases w with
  | none => simp
  | some v =>
      dsimp only
      by_cases hcond : (v != "" && !(r.wallpapersViewed.contains v)) = true
      · rw [if_pos hcond]
        simp only [Bool.and_eq_true, bne_iff_ne, Bool.not_eq_true'] at hcond
        obtain ⟨hv, hc⟩ := hcond
        dsimp only
        simp only [List.mem_append, List.mem_singleton, Option.some.injEq]
        constructor
        · rintro (h | rfl)
          · exact Or.inl h
          · exact Or.inr ⟨rfl, hv⟩
        · rintro (h | ⟨rfl, -⟩)
          · exact Or.inl h
          · exact Or.inr rfl
      · rw [if_neg hcond]
        simp only [Bool.and_eq_true, bne_iff_ne, Bool.not_eq_true', not_and_or] at hcond
        dsimp only
        simp only [Option.some.injEq]
        constructor
        · exact fun h => Or.inl h
        · rintro (h | ⟨rfl, hv⟩)
          · exact h
          · rcases hcond with h1 | h2
            · exact absurd (not_not.mp h1) hv
            · have hcv : r.wallpapersViewed.contains v = true := by
                rcases Bool.eq_false_or_eq_true (r.wallpapersViewed.contains v) with ht | hf
                · exact ht
                · exact absurd hf h2
              simpa using hcv

theorem updateRec_wv_nodup (n : Int) (s : TgUser) (w : Option String) (r : UserRec)
    (h : r.wallpapersViewed.Nodup) : (updateRec n s w r).wallpapersViewed.Nodup := by
  unfold updateRec
  cases w with
  | none => simpa using h
  | some v =>
      dsimp only
      by_cases hcond : (v != "" && !(r.wallpapersViewed.contains v)) = true
      · rw [if_pos hcond]
        simp only [Bool.and_eq_true, bne_iff_ne, Bool.not_eq_true'] at hcond
        have hm : v ∉ r.wallpapersViewed := by simpa using hcond.2
        dsimp only
        simp [List.nodup_append, h, hm]
      · rw [if_neg hcond]
        simpa using h

theorem newRec_wv_mem (n : Int) (s : TgUser) (w : Option String) (x : String) :
    x ∈ (newRec n s w).wallpapersViewed ↔ (w = some x ∧ x ≠ "") := by
  unfold newRec
  cases w with
  | none => simp
  | some v =>
      dsimp only
      by_cases hv : v = ""
      · subst hv
        simp only [bne_self_eq_false, if_neg (Bool.false_ne_true)]
        simp only [List.not_mem_nil, false_iff, not_and, Option.some.injEq]
        intro he
        subst he
        simp
      · rw [if_pos (by simpa using hv)]
        simp only [List.mem_singleton, Option.some.injEq]
        constructor
        · rintro rfl
          exact ⟨rfl, hv⟩
        · rintro ⟨rfl, -⟩
          rfl

theorem newRec_wv_nodup (n : Int) (s : TgUser) (w : Option String) :
    (newRec n s w).wallpapersViewed.Nodup := by
  unfold newRec
  cases w with
  | none => simp
  | some v =>
      dsimp only
      split <;> simp

theorem find?_append_last (p : UserRec → Bool) (r : UserRec) (hpr : p r = true) :
    ∀ l₁ : List UserRec, (∀ u ∈ l₁, p u = false) → (l₁ ++ [r]).find? p = some r := by
  intro l₁
  induction l₁ with
  | nil =>
      intro _
      simp [List.find?_cons, hpr]
  | cons u us ih =>
      intro h
      have hu := h u (List.mem_cons_self u us)
      simp only [List.cons_append, List.find?_cons, hu]
      exact ih (fun v hv => h v (List.mem_cons_of_mem u hv))

theorem replaceFirst_append_last (p : UserRec → Bool) (v r : UserRec) (hpr : p r = true) :
    ∀ l₁ : List UserRec, (∀ u ∈ l₁, p u = false) → replaceFirst p v (l₁ ++ [r]) = l₁ ++ [v] := by
  intro l₁
  induction l₁ with
  | nil =>
      intro _
      simp [replaceFirst, hpr]
  | cons u us ih =>
      intro h
      have hu := h u (List.mem_cons_self u us)
      simp only [List.cons_append, replaceFirst, hu, Bool.false_eq_true, if_false, List.cons.injEq,
        true_and]
      exact ih (fun w hw => h w (List.mem_cons_of_mem u hw))

theorem saveUserData_absent (now : Int) (sender : TgUser) (wid : Option String) (s : Store)
    (h : ∀ u ∈ s.users, (u.userId == sender.id) = false) :
    saveUserData now sender wid s = { s with users := s.users ++ [newRec now sender wid] } := by
  have hf : s.users.find? (fun u => u.userId == sender.id) = none :=
    List.find?_eq_none.mpr (fun u hu => by simp [h u hu])
  unfold saveUserData
  rw [hf]

theorem saveUserData_present (now : Int) (sender : TgUser) (wid : Option String) (s : Store)
    (l₁ : List UserRec) (r : UserRec) (hs : s.users = l₁ ++ [r])
    (h₁ : ∀ u ∈ l₁, (u.userId == sender.id) = false) (hr : r.userId = sender.id) :
    saveUserData now sender wid s =
      { s with users := l₁ ++ [updateRec now sender wid r] } := by
  have hpr : (fun u => u.userId == sender.id) r = true := by simp [hr]
  have hf : s.users.find? (fun u => u.userId == sender.id) = some r := by
    rw [hs]
    exact find?_append_last _ r hpr l₁ h₁
  unfold saveUserData
  rw [hf, hs]
  dsimp only
  rw [replaceFirst_append_last _ _ r hpr l₁ h₁]

theorem applyInteractions_userId :
    ∀ (l : List Interaction) (r : UserRec), (applyInteractions r l).userId = r.userId := by
  intro l
  induction l with
  | nil => intro r; rfl
  | cons i is ih =>
      intro r
      rw [applyInteractions, ih, updateRec_userId]

theorem applyInteractions_total :
    ∀ (l : List Interaction) (r : UserRec),
      (applyInteractions r l).totalInteractions = r.totalInteractions + l.length := by
  intro l
  induction l with
  | nil => intro r; rfl
  | cons i is ih =>
      intro r
      rw [applyInteractions, ih, updateRec_total, List.length_cons]
      omega

theorem applyInteractions_wv_mem :
    ∀ (l : List Interaction) (r : UserRec) (x : String),
      x ∈ (applyInteractions r l).wallpapersViewed ↔
        x ∈ r.wallpapersViewed ∨ ∃ i ∈ l, i.wallpaperId = some x ∧ x ≠ "" := by
  intro l
  induction l with
  | nil => intro r x; simp [applyInteractions]
  | cons i is ih =>
      intro r x
      rw [applyInteractions, ih, updateRec_wv_mem]
      simp only [List.mem_cons]
      constructor
      · rintro ((h | hw) | ⟨j, hj, hjw⟩)
        · exact Or.inl h
        · exact Or.inr ⟨i, Or.inl rfl, hw⟩
        · exact Or.inr ⟨j, Or.inr hj, hjw⟩
      · rintro (h | ⟨j, (rfl | hj), hjw⟩)
        · exact Or.inl (Or.inl h)
        · exact Or.inl (Or.inr hjw)
        · exact Or.inr ⟨j, hj, hjw⟩

theorem applyInteractions_wv_nodup :
    ∀ (l : List Interaction) (r : UserRec),
      r.wallpapersViewed.Nodup → (applyInteractions r l).wallpapersViewed.Nodup := by
  intro l
  induction l with
  | nil => intro r h; exact h
  | cons i is ih =>
      intro r h
      exact ih _ (updateRec_wv_nodup i.now i.sender i.wallpaperId r h)

theorem runInteractions_after (uid : Int) :
    ∀ (rest : List Interaction) (r : UserRec) (l₁ : List UserRec) (cl : List LinkClickRec),
      (∀ u ∈ l₁, (u.userId == uid) = false) → r.userId = uid →
      (∀ i ∈ rest, i.sender.id = uid) →
      runInteractions ⟨l₁ ++ [r], cl⟩ rest = ⟨l₁ ++ [applyInteractions r rest], cl⟩ := by
  intro rest
  induction rest with
  | nil => intro r l₁ cl h₁ hr hall; rfl
  | cons i is ih =>
      intro r l₁ cl h₁ hr hall
      have hsid : i.sender.id = uid := hall i (List.mem_cons_self i is)
      have h₁' : ∀ u ∈ l₁, (u.userId == i.sender.id) = false := by rw [hsid]; exact h₁
      have hr' : r.userId = i.sender.id := by rw [hsid, hr]
      rw [runInteractions,
        saveUserData_present i.now i.sender i.wallpaperId ⟨l₁ ++ [r], cl⟩ l₁ r rfl h₁' hr']
      have hu : (updateRec i.now i.sender i.wallpaperId r).userId = uid := by
        rw [updateRec_userId, hr]
      exact ih (updateRec i.now i.sender i.wallpaperId r) l₁ cl h₁ hu
        (fun j hj => hall j (List.mem_cons_of_mem i hj))

/-- C1: for any non-empty sequence of `saveUserData` interactions carrying
the same user identifier (each supplied wallpaper id being an actual id,
i.e. not the empty string), starting from a store holding no record for that
identifier, exactly one record for it exists afterward, its
`totalInteractions` equals the number of interactions, and its
`wallpapersViewed` holds each distinct supplied wallpaper id exactly once no
matter how often it was supplied. -/
theorem c1_upsert_invariant (uid : Int) (seq : List Interaction) (s0 : Store)
    (hne : seq ≠ [])
    (hsame : ∀ i ∈ seq, i.sender.id = uid)
    (hwp : ∀ i ∈ seq, i.wallpaperId ≠ some "")
    (h0 : ∀ u ∈ s0.users, u.userId ≠ uid) :
    ∃ r, (runInteractions s0 seq).users.filter (fun u => u.userId == uid) = [r]
      ∧ r.totalInteractions = seq.length
      ∧ ∀ w, (∃ i ∈ seq, i.wallpaperId = some w) → r.wallpapersViewed.count w = 1 := by
  cases seq with
  | nil => exact absurd rfl hne
  | cons i rest =>
      have h0' : ∀ u ∈ s0.users, (u.userId == uid) = false := fun u hu => by simp [h0 u hu]
      have hsid : i.sender.id = uid := hsame i (List.mem_cons_self i rest)
      have h0'' : ∀ u ∈ s0.users, (u.userId == i.sender.id) = false := by
        rw [hsid]; exact h0'
      have hnr : (newRec i.now i.sender i.wallpaperId).userId = uid := by
        unfold newRec; exact hsid
      rw [runInteractions, saveUserData_absent i.now i.sender i.wallpaperId s0 h0'']
      rw [show ({ s0 with users := s0.users ++ [newRec i.now i.sender i.wallpaperId] } : Store)
            = ⟨s0.users ++ [newRec i.now i.sender i.wallpaperId], s0.clicks⟩ from rfl]
      rw [runInteractions_after uid rest _ s0.users s0.clicks h0' hnr
           (fun j hj => hsame j (List.mem_cons_of_mem i hj))]
      refine ⟨applyInteractions (newRec i.now i.sender i.wallpaperId) rest, ?_, ?_, ?_⟩
      · have hfr : ((applyInteractions (newRec i.now i.sender i.wallpaperId) rest).userId
            == uid) = true := by
          simp [applyInteractions_userId, hnr]
        rw [List.filter_append,
          List.filter_eq_nil_iff.mpr (fun u hu => by simp [h0 u hu])]
        simp [hfr]
      · rw [applyInteractions_total]
        have hone : (newRec i.now i.sender i.wallpaperId).totalInteractions = 1 := rfl
        rw [hone, List.length_cons]
        omega
      · intro w hw
        have hnodup := applyInteractions_wv_nodup rest _
          (newRec_wv_nodup i.now i.sender i.wallpaperId)
        have hmem : w ∈ (applyInteractions (newRec i.now i.sender i.wallpaperId)
            rest).wallpapersViewed := by
          rw [applyInteractions_wv_mem, newRec_wv_mem]
          obtain ⟨j, hj, hjw⟩ := hw
          have hwne : w ≠ "" := by
            intro hws
            subst hws
            exact hwp j hj hjw
          rcases List.mem_cons.mp hj with rfl | hjr
          · exact Or.inl ⟨hjw, hwne⟩
          · exact Or.inr ⟨j, hjr, hjw, hwne⟩
        exact List.count_eq_one_of_mem hnodup hmem

/-- C1 witness: three interactions of user 7 supplying wallpaper "wp1"
twice then nothing leave exactly one record with 3 total interactions and
"wp1" appearing once. -/
theorem c1_upsert_invariant_witness :
    ∃ r, (runInteractions emptyStore seqFixture).users.filter (fun u => u.userId == 7) = [r]
      ∧ r.totalInteractions = seqFixture.length
      ∧ ∀ w, (∃ i ∈ seqFixture, i.wallpaperId = some w) → r.wallpapersViewed.count w = 1 :=
  c1_upsert_invariant 7 seqFixture emptyStore (by decide) (by decide) (by decide) (by decide)
